import Mathlib

/-!
Shallow embedding of the physical-device selection logic of the Vulkan
tutorial repository (variants: chap01/chap1.cpp, chap01/module1/vkCtx.cpp,
triangle/vkContext.cpp, vulkan7/vkContext.cpp).

The Vulkan driver is modelled as an environment: every query the code makes
about a physical device (its properties, queue families, extension list,
surface formats, presentation modes, per-family surface support) is recorded
as a field of a device record, and the selection functions are translated as
pure functions over those records.
-/

/-- Low bits of VkQueueFlagBits used by the code (vulkan.h). -/
def VK_QUEUE_GRAPHICS_BIT : Nat := 1

/-- VkQueueFlagBits compute bit. -/
def VK_QUEUE_COMPUTE_BIT : Nat := 2

/-- VkQueueFlagBits transfer bit. -/
def VK_QUEUE_TRANSFER_BIT : Nat := 4

/-- VkPhysicalDeviceType value for the generic other category. -/
def VK_PHYSICAL_DEVICE_TYPE_OTHER : Nat := 0

/-- VkPhysicalDeviceType value for integrated GPUs. -/
def VK_PHYSICAL_DEVICE_TYPE_INTEGRATED_GPU : Nat := 1

/-- VkPhysicalDeviceType value for discrete GPUs. -/
def VK_PHYSICAL_DEVICE_TYPE_DISCRETE_GPU : Nat := 2

/-- VkPhysicalDeviceType value for virtual GPUs. -/
def VK_PHYSICAL_DEVICE_TYPE_VIRTUAL_GPU : Nat := 3

/-- VkPhysicalDeviceType value for CPU devices. -/
def VK_PHYSICAL_DEVICE_TYPE_CPU : Nat := 4

/-- VkResult success code. -/
def VK_SUCCESS : Int := 0

/-- VkResult code returned by vkCtx::init when no suitable device is found. -/
def VK_ERROR_INITIALIZATION_FAILED : Int := -3

/-- Conversion of a C `int` value into a `uint32_t` (reduction mod 2^32), as
happens in `uint32_t nRet = -1;` and in the comparison `-1 == *device`. -/
def uint32Cast (i : Int) : Nat := (i % (2 ^ 32 : Int)).toNat

namespace module1

/-- VkPhysicalDeviceProperties restricted to the one field
vkCtx::findSuitableDevice reads (deviceType, held as a Nat code). -/
structure VkPhysicalDeviceProperties where
  deviceType : Nat
deriving DecidableEq, Repr

/-- VkQueueFamilyProperties restricted to the fields the chap01 code reads. -/
structure VkQueueFamilyProperties where
  queueCount : Nat
  queueFlags : Nat
deriving DecidableEq, Repr

/-- One enumerated physical device of chap01/module1, bundled with the answers
the driver gives to vkGetPhysicalDeviceProperties and
vkGetPhysicalDeviceQueueFamilyProperties for it. -/
structure ChapDevice where
  props : VkPhysicalDeviceProperties
  queueProps : List VkQueueFamilyProperties
deriving DecidableEq, Repr

/-- The vkProperties bit-field record of vkCtx.h: `type` is the 3-bit
device-type mask, `ops` the 9-bit queue-operation mask. -/
structure vkProperties where
  type : Nat
  ops : Nat
deriving DecidableEq, Repr

/-- The type stage of vkCtx::findSuitableDevice for one device: a device of
type OTHER is skipped by `continue`; otherwise the four if-statements push the
device exactly when its declared type value T is in 1..4 and `devProp & T` is
non-zero. -/
def typeCandidate (deviceType devProp : Nat) : Bool :=
  if deviceType == VK_PHYSICAL_DEVICE_TYPE_OTHER then false
  else
    (deviceType == VK_PHYSICAL_DEVICE_TYPE_INTEGRATED_GPU
       && (devProp &&& VK_PHYSICAL_DEVICE_TYPE_INTEGRATED_GPU) != 0)
    || (deviceType == VK_PHYSICAL_DEVICE_TYPE_DISCRETE_GPU
       && (devProp &&& VK_PHYSICAL_DEVICE_TYPE_DISCRETE_GPU) != 0)
    || (deviceType == VK_PHYSICAL_DEVICE_TYPE_VIRTUAL_GPU
       && (devProp &&& VK_PHYSICAL_DEVICE_TYPE_VIRTUAL_GPU) != 0)
    || (deviceType == VK_PHYSICAL_DEVICE_TYPE_CPU
       && (devProp &&& VK_PHYSICAL_DEVICE_TYPE_CPU) != 0)

/-- The first loop of vkCtx::findSuitableDevice: the vector `canidateDevs`
(spelling from the source) of indices whose device passes the type stage, in
enumeration order.  Each index is kept paired with its device, mirroring the
later lookup `m_physicalDevices.at(dev)`. -/
def canidateDevs (devProp : Nat) (devices : List ChapDevice) : List (Nat × ChapDevice) :=
  devices.enum.filter fun p => typeCandidate p.2.props.deviceType devProp

/-- The inner queue loop of vkCtx::findSuitableDevice: some queue family of
the device has `(queue.queueFlags & devOps) == devOps`. -/
def hasSuitableQueue (devOps : Nat) (queueProperties : List VkQueueFamilyProperties) : Bool :=
  queueProperties.any fun queue => (queue.queueFlags &&& devOps) == devOps

/-- vkCtx::findSuitableDevice (chap01/module1): `nRet` starts as
`uint32_t(-1)`; the second loop walks the type candidates in order and, for
each candidate with a suitable queue, overwrites `nRet` with that candidate
index (the `break` exits only the inner queue loop). -/
def findSuitableDevice (properties : vkProperties) (devices : List ChapDevice) : Nat :=
  (canidateDevs properties.type devices).foldl
    (fun nRet p => if hasSuitableQueue properties.ops p.2.queueProps then p.1 else nRet)
    (uint32Cast (-1))

/-- The comparison `-1 == *device` performed by vkCtx::init after
findSuitableDevice: the int literal -1 is converted to uint32_t. -/
def init_failureCheck (device : Nat) : Bool :=
  uint32Cast (-1) == device

/-- The device-selection tail of vkCtx::init: stores the findSuitableDevice
result into `*device` and downgrades `res` to VK_ERROR_INITIALIZATION_FAILED
when the failure check fires. -/
def init_selectDevice (properties : vkProperties) (devices : List ChapDevice) : Nat × Int :=
  let device := findSuitableDevice properties devices
  if init_failureCheck device then (device, VK_ERROR_INITIALIZATION_FAILED)
  else (device, VK_SUCCESS)

end module1

namespace chap1

/-- The two member variables of the earliest vkCtx (chap01/chap1.cpp) touched
by findSuitableDevice: the candidate list of (device index, score) pairs and
the chosen device handle (`none` models VK_NULL_HANDLE). -/
structure Chap1State where
  m_suitableDevices : List (Nat × Nat)
  m_suitableDevice : Option Nat
deriving DecidableEq, Repr

/-- The state established by the vkCtx constructor:
`m_suitableDevice(VK_NULL_HANDLE)` and a default-constructed empty vector. -/
def initState : Chap1State := ⟨[], none⟩

/-- vkCtx::findSuitableDevice of chap01/chap1.cpp: the loop over
m_physicalDevices has an empty body; afterwards, if m_suitableDevices is
empty, m_suitableDevice is set to VK_NULL_HANDLE; bRet is never changed from
false. -/
def findSuitableDevice (m_physicalDevices : List Nat) (st : Chap1State) : Bool × Chap1State :=
  let bRet := false
  let st1 := m_physicalDevices.foldl (fun s _ => s) st
  let st2 := if st1.m_suitableDevices.length == 0 then { st1 with m_suitableDevice := none } else st1
  (bRet, st2)

end chap1

/-- One queue family of the triangle and vulkan7 variants: the
VkQueueFamilyProperties fields the code reads, bundled with the answer the
driver gives to vkGetPhysicalDeviceSurfaceSupportKHR for this family index
against the context surface. -/
structure QueueFamilyInfo where
  queueCount : Nat
  queueFlags : Nat
  presentationSupport : Bool
deriving DecidableEq, Repr

/-- The queueFamilyIndices structure of utilities.h: both indices start at -1. -/
structure queueFamilyIndices where
  graphicsFamily : Int := -1
  presentationFamily : Int := -1
deriving DecidableEq, Repr

/-- queueFamilyIndices::isValid: both indices non-negative. -/
def queueFamilyIndices.isValid (ind : queueFamilyIndices) : Bool :=
  decide (ind.graphicsFamily ≥ 0) && decide (ind.presentationFamily ≥ 0)

/-- The graphics test applied to one family inside
vkContext::getQueueFamilies: non-zero queue count and the graphics bit set. -/
def graphicsCond (queueFamily : QueueFamilyInfo) : Bool :=
  decide (queueFamily.queueCount > 0) && (queueFamily.queueFlags &&& VK_QUEUE_GRAPHICS_BIT) != 0

/-- The presentation test applied to one family inside
vkContext::getQueueFamilies: non-zero queue count and surface support. -/
def presentCond (queueFamily : QueueFamilyInfo) : Bool :=
  decide (queueFamily.queueCount > 0) && queueFamily.presentationSupport

/-- The scan loop of vkContext::getQueueFamilies (identical in
triangle/vkContext.cpp and vulkan7/vkContext.cpp): each qualifying family
overwrites the corresponding index with the current counter `i`, and the loop
breaks as soon as both indices are valid.  The `pProp` out-parameter feeds
logging only and is not modelled. -/
def getQueueFamiliesLoop (indices : queueFamilyIndices) (i : Int) :
    List QueueFamilyInfo → queueFamilyIndices
  | [] => indices
  | queueFamily :: rest =>
    let ind1 := if graphicsCond queueFamily then { indices with graphicsFamily := i } else indices
    let ind2 := if presentCond queueFamily then { ind1 with presentationFamily := i } else ind1
    if ind2.isValid then ind2 else getQueueFamiliesLoop ind2 (i + 1) rest

/-- vkContext::getQueueFamilies, as a function of the device's enumerated
queue families (with their surface-support answers). -/
def getQueueFamilies (queueFamilyList : List QueueFamilyInfo) : queueFamilyIndices :=
  getQueueFamiliesLoop {} 0 queueFamilyList

/-- The global required device-extension list of utilities.h:
`{ VK_KHR_SWAPCHAIN_EXTENSION_NAME }`. -/
def deviceExtensions : List String := ["VK_KHR_swapchain"]

/-- vkContext::checkDeviceExtensionSupport (identical in
triangle/vkContext.cpp and vulkan7/vkContext.cpp): fail when the device
enumerates zero extensions, otherwise require every entry of the required
list to occur (strcmp equality) in the device's extension list. -/
def checkDeviceExtensionSupport (required extensions : List String) : Bool :=
  if extensions.length == 0 then false
  else required.all fun deviceExtension =>
    extensions.any fun extension => deviceExtension == extension

/-- One enumerated physical device of the triangle and vulkan7 variants,
bundled with the answers the driver gives to every query checkDeviceSuitable
makes about it: queue families (with surface support), device extension list,
surface formats and presentation modes (entries modelled as opaque codes,
only emptiness is read), and the samplerAnisotropy feature flag. -/
structure TriDevice where
  queueFamilies : List QueueFamilyInfo
  extensions : List String
  formats : List Nat
  presentationModes : List Nat
  samplerAnisotropy : Bool
deriving DecidableEq, Repr

namespace triangle

/-- vkContext::checkDeviceSuitable of triangle/vkContext.cpp: queue-family
indices valid, device extensions supported, and (only computed when the
extension check passed) both swapchain lists non-empty.  The device
properties/queue prints are logging only. -/
def checkDeviceSuitable (dev : TriDevice) : Bool :=
  let indices := getQueueFamilies dev.queueFamilies
  let extensionsSupported := checkDeviceExtensionSupport deviceExtensions dev.extensions
  let swapChainValid :=
    if extensionsSupported then !dev.presentationModes.isEmpty && !dev.formats.isEmpty
    else false
  indices.isValid && extensionsSupported && swapChainValid

/-- The two failure exits of vkContext::getPhysicalDevice, each of which
raises std::runtime_error. -/
inductive SelectError where
  | noDevices
  | noSuitableDevice
deriving DecidableEq, Repr

/-- vkContext::getPhysicalDevice of triangle/vkContext.cpp: throw when zero
devices are enumerated; otherwise take the first device for which
checkDeviceSuitable holds (m_device.physical starts as nullptr and the loop
breaks at the first suitable device); throw when none qualifies. -/
def getPhysicalDevice (deviceList : List TriDevice) : Except SelectError TriDevice :=
  if deviceList.length == 0 then Except.error SelectError.noDevices
  else
    match deviceList.find? (fun device => checkDeviceSuitable device) with
    | some device => Except.ok device
    | none => Except.error SelectError.noSuitableDevice

end triangle

namespace vulkan7

/-- vkContext::checkDeviceSuitable of vulkan7/vkContext.cpp: same structure
as the triangle variant (getQueueFamilies and checkDeviceExtensionSupport are
textually identical in both files) with the additional conjunct
`deviceFeatures.samplerAnisotropy`. -/
def checkDeviceSuitable (dev : TriDevice) : Bool :=
  let indices := getQueueFamilies dev.queueFamilies
  let extensionsSupported := checkDeviceExtensionSupport deviceExtensions dev.extensions
  let swapChainValid :=
    if extensionsSupported then !dev.presentationModes.isEmpty && !dev.formats.isEmpty
    else false
  indices.isValid && extensionsSupported && swapChainValid && dev.samplerAnisotropy

end vulkan7

/-- A triangle-variant device that passes every check of checkDeviceSuitable. -/
def devA : TriDevice := ⟨[⟨1, 1, true⟩], ["VK_KHR_swapchain"], [0], [0], true⟩

/-- A second fully suitable triangle-variant device, distinguishable from devA. -/
def devB : TriDevice := ⟨[⟨1, 1, true⟩], ["VK_KHR_swapchain"], [1], [0], true⟩

/-- A device whose extension list contains the swapchain extension but whose
presentation-mode list is empty. -/
def devEmptyModes : TriDevice := ⟨[⟨1, 1, true⟩], ["VK_KHR_swapchain"], [0], [], true⟩

/-- A device passing every check except the samplerAnisotropy feature flag. -/
def devNoAniso : TriDevice := ⟨[⟨1, 1, true⟩], ["VK_KHR_swapchain"], [0], [0], false⟩

/-! Helper lemmas shared by several theorems. -/

lemma foldl_select_const {ops : Nat} {l : List (Nat × module1.ChapDevice)} {init : Nat}
    (h : ∀ p ∈ l, module1.hasSuitableQueue ops p.2.queueProps = false) :
    l.foldl (fun nRet p => if module1.hasSuitableQueue ops p.2.queueProps then p.1 else nRet)
      init = init := by
  induction l generalizing init with
  | nil => rfl
  | cons a t ih =>
    have ha : module1.hasSuitableQueue ops a.2.queueProps = false := h a (by simp)
    simp only [List.foldl_cons, ha, Bool.false_eq_true, if_false]
    exact ih fun p hp => h p (List.mem_cons_of_mem a hp)

lemma findSuitableDevice_noMatch (properties : module1.vkProperties)
    (devices : List module1.ChapDevice)
    (h : ∀ p ∈ module1.canidateDevs properties.type devices,
        module1.hasSuitableQueue properties.ops p.2.queueProps = false) :
    module1.findSuitableDevice properties devices = uint32Cast (-1) := by
  unfold module1.findSuitableDevice
  exact foldl_select_const h

lemma isEmpty_false_ne_nil {α : Type} {l : List α} (h : l.isEmpty = false) : l ≠ [] := by
  cases l <;> simp_all

lemma foldl_keep {α β : Type} (l : List β) (s : α) : l.foldl (fun a _ => a) s = s := by
  induction l generalizing s with
  | nil => rfl
  | cons b t ih => simp [List.foldl_cons, ih s]

/-! The claim theorems. -/

/-- Claim C1 (code bug): evaluating chap01/module1 findSuitableDevice on a
device list in which the devices at indices 0 and 2 both pass every stage of
the filter (discrete GPUs with a graphics-capable queue; requested type mask
2 = discrete, requested ops mask 1 = graphics) yields index 2 — the LAST
qualifying candidate, not index 0.  The `break` in the source exits only the
inner queue loop, so each later qualifying candidate overwrites `nRet`,
contradicting the function's own comment that the first satisfying device is
taken.  The final conjunct shows the triangle-variant selection loop does
stop at the first suitable device. -/
theorem claim_C1_lastMatchEvaluation :
    module1.findSuitableDevice ⟨2, 1⟩
      [⟨⟨2⟩, [⟨1, 1⟩]⟩, ⟨⟨0⟩, [⟨1, 1⟩]⟩, ⟨⟨2⟩, [⟨1, 1⟩]⟩] = 2
    ∧ module1.typeCandidate 2 2 = true
    ∧ module1.hasSuitableQueue 1 [⟨1, 1⟩] = true
    ∧ triangle.getPhysicalDevice [devA, devB] = Except.ok devA :=
  ⟨by rfl, by rfl, by rfl, by rfl⟩

/-- Claim C2: the operation stage of the chap01/module1 suitability filter
accepts a device exactly when some queue family's capability bits form a
bitwise superset of the requested operation bits, and on the concrete family
with bits graphics and transfer (flags 5) it accepts requests for graphics
(1) and for graphics plus transfer (5) but rejects graphics plus compute
(3). -/
theorem claim_C2_operationSuperset :
    (∀ (ops : Nat) (qs : List module1.VkQueueFamilyProperties),
        module1.hasSuitableQueue ops qs = true ↔ ∃ q ∈ qs, q.queueFlags &&& ops = ops)
    ∧ module1.hasSuitableQueue 1 [⟨1, 5⟩] = true
    ∧ module1.hasSuitableQueue 5 [⟨1, 5⟩] = true
    ∧ module1.hasSuitableQueue 3 [⟨1, 5⟩] = false := by
  refine ⟨?_, by rfl, by rfl, by rfl⟩
  intro ops qs
  simp [module1.hasSuitableQueue, List.any_eq_true]

/-- Claim C3: the type stage of the suitability filter (realized in
chap01/module1 findSuitableDevice) always rejects a device whose declared
type is the generic other category (code 0), whatever the requested mask,
and passes a discrete device (code 2) exactly when the requested type mask
has the discrete bit set. -/
theorem claim_C3_typeStage :
    (∀ m, module1.typeCandidate VK_PHYSICAL_DEVICE_TYPE_OTHER m = false)
    ∧ (∀ m, module1.typeCandidate VK_PHYSICAL_DEVICE_TYPE_DISCRETE_GPU m
        = ((m &&& VK_PHYSICAL_DEVICE_TYPE_DISCRETE_GPU) != 0)) := by
  constructor
  · intro m; rfl
  · intro m
    simp [module1.typeCandidate, VK_PHYSICAL_DEVICE_TYPE_OTHER,
      VK_PHYSICAL_DEVICE_TYPE_INTEGRATED_GPU, VK_PHYSICAL_DEVICE_TYPE_DISCRETE_GPU,
      VK_PHYSICAL_DEVICE_TYPE_VIRTUAL_GPU, VK_PHYSICAL_DEVICE_TYPE_CPU]

/-- Claim C8: the earliest findSuitableDevice (chap01/chap1.cpp) is inert:
its device loop has an empty body, so the call never changes the candidate
list, the return value is always false, and from the constructor state
(empty candidate list, null chosen device) the call leaves the candidate
list empty and the chosen device null. -/
theorem claim_C8_inertScoring :
    (∀ (devices : List Nat) (st : chap1.Chap1State),
        (chap1.findSuitableDevice devices st).1 = false
        ∧ ((chap1.findSuitableDevice devices st).2).m_suitableDevices = st.m_suitableDevices)
    ∧ (∀ devices : List Nat,
        chap1.findSuitableDevice devices chap1.initState = (false, ⟨[], none⟩)) := by
  constructor
  · intro devices st
    refine ⟨rfl, ?_⟩
    simp only [chap1.findSuitableDevice, foldl_keep]
    by_cases h : st.m_suitableDevices.length == 0 <;> simp [h]
  · intro devices
    simp [chap1.findSuitableDevice, foldl_keep, chap1.initState]

/-- Claim C4: whenever checkDeviceSuitable (triangle or vulkan7 variant)
reports a device suitable, the device-extension check passed and both the
surface-format list and the presentation-mode list are non-empty; and the
concrete device devEmptyModes, whose extension check passes but whose
presentation-mode list is empty, is rejected. -/
theorem claim_C4_swapchainNonEmptiness (dev : TriDevice)
    (h : triangle.checkDeviceSuitable dev = true ∨ vulkan7.checkDeviceSuitable dev = true) :
    checkDeviceExtensionSupport deviceExtensions dev.extensions = true
    ∧ dev.formats ≠ [] ∧ dev.presentationModes ≠ []
    ∧ triangle.checkDeviceSuitable devEmptyModes = false
    ∧ checkDeviceExtensionSupport deviceExtensions devEmptyModes.extensions = true := by
  have hcore : checkDeviceExtensionSupport deviceExtensions dev.extensions = true
      ∧ dev.formats ≠ [] ∧ dev.presentationModes ≠ [] := by
    by_cases hext : checkDeviceExtensionSupport deviceExtensions dev.extensions = true
    · rcases h with h | h
      · simp only [triangle.checkDeviceSuitable, hext, if_true, Bool.and_eq_true,
          Bool.not_eq_eq_eq_not, Bool.not_true, and_true] at h
        exact ⟨hext, isEmpty_false_ne_nil h.2.2, isEmpty_false_ne_nil h.2.1⟩
      · simp only [vulkan7.checkDeviceSuitable, hext, if_true, Bool.and_eq_true,
          Bool.not_eq_eq_eq_not, Bool.not_true, and_true] at h
        exact ⟨hext, isEmpty_false_ne_nil h.1.2.2, isEmpty_false_ne_nil h.1.2.1⟩
    · exfalso
      rcases h with h | h <;>
        simp only [triangle.checkDeviceSuitable, vulkan7.checkDeviceSuitable,
          Bool.and_eq_true] at h <;> exact hext (by tauto)
  exact ⟨hcore.1, hcore.2.1, hcore.2.2, by rfl, by rfl⟩

/-- Claim C4 witness: instantiation at the concrete suitable device devA. -/
theorem claim_C4_witness :
    checkDeviceExtensionSupport deviceExtensions devA.extensions = true
    ∧ devA.formats ≠ [] ∧ devA.presentationModes ≠ []
    ∧ triangle.checkDeviceSuitable devEmptyModes = false
    ∧ checkDeviceExtensionSupport deviceExtensions devEmptyModes.extensions = true :=
  claim_C4_swapchainNonEmptiness devA (Or.inl (by rfl))

/-- Claim C5 counterexample: with an empty required list and a device that
enumerates zero extensions, checkDeviceExtensionSupport returns false even
though every required extension is (vacuously) present in the device list. -/
theorem claim_C5_counterexample :
    checkDeviceExtensionSupport [] [] = false
    ∧ (([] : List String).all fun r => ([] : List String).contains r) = true :=
  ⟨rfl, rfl⟩

/-- Claim C5 (amended): checkDeviceExtensionSupport accepts exactly when the
device enumerates at least one extension and every required extension occurs
in the device's list; concretely, a device missing one of two required
extensions is rejected, a device listing both plus an extra is accepted, and
a device enumerating zero extensions is rejected against the code's required
list. -/
theorem claim_C5_extensionAndSemantics :
    (∀ required extensions : List String,
        checkDeviceExtensionSupport required extensions = true
          ↔ extensions ≠ [] ∧ ∀ r ∈ required, r ∈ extensions)
    ∧ checkDeviceExtensionSupport ["VK_KHR_swapchain", "VK_KHR_maintenance1"]
        ["VK_KHR_maintenance1"] = false
    ∧ checkDeviceExtensionSupport ["VK_KHR_swapchain", "VK_KHR_maintenance1"]
        ["VK_EXT_debug_marker", "VK_KHR_swapchain", "VK_KHR_maintenance1"] = true
    ∧ checkDeviceExtensionSupport deviceExtensions [] = false := by
  refine ⟨?_, by rfl, by rfl, by rfl⟩
  intro required extensions
  unfold checkDeviceExtensionSupport
  cases extensions with
  | nil => simp
  | cons e t =>
    simp [List.all_eq_true, List.any_eq_true]

/-- Claim C10: the vulkan7 checkDeviceSuitable accepts a device only if, on
top of the queue-family, extension and swapchain checks, the device's
samplerAnisotropy feature flag is set; the concrete device devNoAniso, which
satisfies every other requirement (the triangle variant accepts it), is
rejected by the vulkan7 variant. -/
theorem claim_C10_anisotropyRequired (dev : TriDevice)
    (h : vulkan7.checkDeviceSuitable dev = true) :
    dev.samplerAnisotropy = true
    ∧ (getQueueFamilies dev.queueFamilies).isValid = true
    ∧ checkDeviceExtensionSupport deviceExtensions dev.extensions = true
    ∧ dev.formats ≠ [] ∧ dev.presentationModes ≠ []
    ∧ vulkan7.checkDeviceSuitable devNoAniso = false
    ∧ triangle.checkDeviceSuitable devNoAniso = true := by
  by_cases hext : checkDeviceExtensionSupport deviceExtensions dev.extensions = true
  · simp only [vulkan7.checkDeviceSuitable, hext, if_true, Bool.and_eq_true,
      Bool.not_eq_eq_eq_not, Bool.not_true, and_true] at h
    exact ⟨h.2, h.1.1, hext, isEmpty_false_ne_nil h.1.2.2, isEmpty_false_ne_nil h.1.2.1,
      by rfl, by rfl⟩
  · exfalso
    simp only [vulkan7.checkDeviceSuitable, Bool.and_eq_true] at h
    exact hext (by tauto)

/-- Claim C10 witness: instantiation at the concrete suitable device devA. -/
theorem claim_C10_witness :
    devA.samplerAnisotropy = true
    ∧ (getQueueFamilies devA.queueFamilies).isValid = true
    ∧ checkDeviceExtensionSupport deviceExtensions devA.extensions = true
    ∧ devA.formats ≠ [] ∧ devA.presentationModes ≠ []
    ∧ vulkan7.checkDeviceSuitable devNoAniso = false
    ∧ triangle.checkDeviceSuitable devNoAniso = true :=
  claim_C10_anisotropyRequired devA (by rfl)

/-- A device enumerating zero extensions (and no presentation support data). -/
def devNoExts : TriDevice := ⟨[⟨1, 1, true⟩], [], [], [], false⟩

lemma getQueueFamiliesLoop_isValid (fams : List QueueFamilyInfo) :
    ∀ (i : Int) (ind : queueFamilyIndices), 0 ≤ i →
      (getQueueFamiliesLoop ind i fams).isValid
        = ((decide (ind.graphicsFamily ≥ 0) || fams.any graphicsCond)
            && (decide (ind.presentationFamily ≥ 0) || fams.any presentCond)) := by
  induction fams with
  | nil =>
    intro i ind hi
    simp [getQueueFamiliesLoop, queueFamilyIndices.isValid]
  | cons qf rest ih =>
    intro i ind hi
    obtain ⟨g, p⟩ := ind
    have hi1 : (0:Int) ≤ i + 1 := by omega
    by_cases hg : graphicsCond qf = true <;> by_cases hp : presentCond qf = true
    · simp [getQueueFamiliesLoop, hg, hp, queueFamilyIndices.isValid, hi, List.any_cons]
    · by_cases hpp : (0:Int) ≤ p
      · simp [getQueueFamiliesLoop, hg, hp, queueFamilyIndices.isValid, hi, hpp, List.any_cons]
      · have key := ih (i + 1) ⟨i, p⟩ hi1
        simp only [queueFamilyIndices.isValid, ge_iff_le] at key
        simp [getQueueFamiliesLoop, hg, hp, queueFamilyIndices.isValid, hi, hpp, List.any_cons,
          key]
    · by_cases hgg : (0:Int) ≤ g
      · simp [getQueueFamiliesLoop, hg, hp, queueFamilyIndices.isValid, hi, hgg, List.any_cons]
      · have key := ih (i + 1) ⟨g, i⟩ hi1
        simp only [queueFamilyIndices.isValid, ge_iff_le] at key
        simp [getQueueFamiliesLoop, hg, hp, queueFamilyIndices.isValid, hi, hgg, List.any_cons,
          key]
    · have key := ih (i + 1) ⟨g, p⟩ hi1
      simp only [queueFamilyIndices.isValid, ge_iff_le] at key
      by_cases hgg : (0:Int) ≤ g <;> by_cases hpp : (0:Int) ≤ p <;>
        simp [getQueueFamiliesLoop, hg, hp, queueFamilyIndices.isValid, hgg, hpp,
          List.any_cons, key]

/-- Claim C6 counterexample: on a device whose family 0 qualifies for
graphics only and whose family 1 qualifies for graphics and presentation,
getQueueFamilies records graphics index 1, not the index 0 of the first
family satisfying the graphics condition: each qualifying family overwrites
the recorded index until the scan stops. -/
theorem claim_C6_counterexample :
    getQueueFamilies [⟨1, 1, false⟩, ⟨1, 1, true⟩] = ⟨1, 1⟩
    ∧ graphicsCond ⟨1, 1, false⟩ = true :=
  ⟨by rfl, by rfl⟩

/-- Claim C6 (amended): getQueueFamilies scans the families in enumerated
order, overwriting each recorded index with the most recently seen family
satisfying that condition, and stops scanning as soon as both indices are
set; consequently the result is valid exactly when some family passes the
graphics test and some family passes the presentation test.  The concrete
conjuncts show distinct indices resolved as distinct, a coinciding pair
resolved equal (with the scan stopping at family 0), and that validity means
both recorded indices are non-negative. -/
theorem claim_C6_queueScan :
    (∀ fams : List QueueFamilyInfo,
        (getQueueFamilies fams).isValid
          = (fams.any graphicsCond && fams.any presentCond))
    ∧ getQueueFamilies [⟨1, 1, false⟩, ⟨1, 0, true⟩] = ⟨0, 1⟩
    ∧ getQueueFamilies [⟨1, 1, true⟩, ⟨1, 1, true⟩] = ⟨0, 0⟩
    ∧ (∀ ind : queueFamilyIndices, ind.isValid = true
          ↔ (ind.graphicsFamily ≥ 0 ∧ ind.presentationFamily ≥ 0)) := by
  refine ⟨?_, by rfl, by rfl, ?_⟩
  · intro fams
    have h := getQueueFamiliesLoop_isValid fams 0 {} (le_refl 0)
    simpa [getQueueFamilies] using h
  · intro ind
    simp [queueFamilyIndices.isValid]

/-- Claim C7 counterexample: on a non-empty device list in which no device
is suitable, triangle getPhysicalDevice raises an error (modelling the
std::runtime_error throw); it does not return a sentinel value to its
caller. -/
theorem claim_C7_counterexample :
    triangle.getPhysicalDevice [devNoExts]
      = Except.error triangle.SelectError.noSuitableDevice := by rfl

/-- Claim C7 (amended): when zero devices qualify, the chap01/module1
selection returns the sentinel uint32 image of -1 — the same value as for an
empty device list, so in that variant a no-match is indistinguishable in the
returned value from device absence — and init maps it to
VK_ERROR_INITIALIZATION_FAILED; the triangle variant instead reports the
no-match case by raising an error from getPhysicalDevice. -/
theorem claim_C7_failureSentinel (properties : module1.vkProperties)
    (devices : List module1.ChapDevice) (deviceList : List TriDevice)
    (h1 : ∀ p ∈ module1.canidateDevs properties.type devices,
        module1.hasSuitableQueue properties.ops p.2.queueProps = false)
    (h2 : ∀ d ∈ deviceList, triangle.checkDeviceSuitable d = false) :
    module1.findSuitableDevice properties devices = uint32Cast (-1)
    ∧ module1.findSuitableDevice properties [] = uint32Cast (-1)
    ∧ (module1.init_selectDevice properties devices).2 = VK_ERROR_INITIALIZATION_FAILED
    ∧ (∃ e, triangle.getPhysicalDevice deviceList = Except.error e) := by
  have hfs := findSuitableDevice_noMatch properties devices h1
  refine ⟨hfs, findSuitableDevice_noMatch properties []
      (by simp [module1.canidateDevs]), ?_, ?_⟩
  · simp [module1.init_selectDevice, hfs, module1.init_failureCheck]
  · cases deviceList with
    | nil => exact ⟨triangle.SelectError.noDevices, rfl⟩
    | cons d t =>
      refine ⟨triangle.SelectError.noSuitableDevice, ?_⟩
      have hnone : (d :: t).find? (fun device => triangle.checkDeviceSuitable device) = none :=
        List.find?_eq_none.mpr fun x hx => by simp [h2 x hx]
      simp [triangle.getPhysicalDevice, hnone]

/-- Claim C7 witness: a discrete device with an unsuitable queue for the
chap01/module1 variant, and a device with no extensions for the triangle
variant. -/
theorem claim_C7_witness :
    module1.findSuitableDevice ⟨2, 1⟩ [⟨⟨2⟩, [⟨1, 0⟩]⟩] = uint32Cast (-1)
    ∧ module1.findSuitableDevice ⟨2, 1⟩ [] = uint32Cast (-1)
    ∧ (module1.init_selectDevice ⟨2, 1⟩ [⟨⟨2⟩, [⟨1, 0⟩]⟩]).2 = VK_ERROR_INITIALIZATION_FAILED
    ∧ (∃ e, triangle.getPhysicalDevice [devNoExts] = Except.error e) :=
  claim_C7_failureSentinel ⟨2, 1⟩ [⟨⟨2⟩, [⟨1, 0⟩]⟩] [devNoExts] (by decide) (by decide)

/-- Claim C9: the sentinel survives the signed-to-unsigned round trip: the
uint32 image of -1 is 4294967295, a no-match run of chap01/module1
findSuitableDevice returns exactly that value, the comparison `-1 ==
*device` of vkCtx::init fires exactly on that value, and init then reports
VK_ERROR_INITIALIZATION_FAILED. -/
theorem claim_C9_sentinelRoundTrip (properties : module1.vkProperties)
    (devices : List module1.ChapDevice)
    (h : ∀ p ∈ module1.canidateDevs properties.type devices,
        module1.hasSuitableQueue properties.ops p.2.queueProps = false) :
    uint32Cast (-1) = 4294967295
    ∧ module1.findSuitableDevice properties devices = 4294967295
    ∧ (∀ v, module1.init_failureCheck v = true ↔ v = 4294967295)
    ∧ module1.init_selectDevice properties devices
        = (4294967295, VK_ERROR_INITIALIZATION_FAILED) := by
  have hval : uint32Cast (-1) = 4294967295 := by rfl
  have hfs := findSuitableDevice_noMatch properties devices h
  refine ⟨hval, by rw [hfs]; exact hval, ?_, ?_⟩
  · intro v
    unfold module1.init_failureCheck
    rw [hval, beq_iff_eq]
    exact eq_comm
  · have hcheck : module1.init_failureCheck (module1.findSuitableDevice properties devices)
        = true := by
      rw [hfs]; rfl
    simp only [module1.init_selectDevice, hcheck, if_true]
    rw [hfs, hval]

/-- Claim C9 witness: an integrated device whose only queue family lacks the
graphics bit. -/
theorem claim_C9_witness :
    uint32Cast (-1) = 4294967295
    ∧ module1.findSuitableDevice ⟨1, 1⟩ [⟨⟨1⟩, [⟨1, 0⟩]⟩] = 4294967295
    ∧ (∀ v, module1.init_failureCheck v = true ↔ v = 4294967295)
    ∧ module1.init_selectDevice ⟨1, 1⟩ [⟨⟨1⟩, [⟨1, 0⟩]⟩]
        = (4294967295, VK_ERROR_INITIALIZATION_FAILED) :=
  claim_C9_sentinelRoundTrip ⟨1, 1⟩ [⟨⟨1⟩, [⟨1, 0⟩]⟩] (by decide)
